import Mathlib

/-!
Shallow embedding of the react-gamepad hook (src/useGamepad.js together
with src/constants.js).  JS numbers are modelled as rationals; JS objects
with integer-like keys as association lists whose keys are kept in
ascending order, matching the ascending iteration order of integer keys
in JS objects; the host device list returned by the gamepad query is an
optional list of optional snapshots, where a missing list models a host
without the query capability and a missing slot models a null entry.
-/

/-- One entry of a gamepad's raw buttons array, and equally one published
ButtonState entry: the poller copies pressed, value and touched verbatim. -/
structure GButton where
  pressed : Bool
  value : ℚ
  touched : Option Bool
deriving DecidableEq

/-- A host gamepad snapshot: slot index, identifier string, update
timestamp, raw buttons and raw axes. -/
structure Gamepad where
  index : ℕ
  id : String
  timestamp : ℚ
  buttons : List GButton
  axes : List ℚ
deriving DecidableEq

/-- The hook's mutable store: the gamepads, buttonStates and axisStates
React state objects, the prevTimestamps ref and the isGamepadConnected
flag. -/
structure GState where
  gamepads : List (ℕ × Gamepad)
  buttonStates : List (ℕ × List (ℕ × GButton))
  axisStates : List (ℕ × List (ℕ × ℚ))
  prevTimestamps : List (ℕ × ℚ)
  isGamepadConnected : Bool
deriving DecidableEq

/-- The store before any device has been seen: every object empty and the
connected flag false. -/
def initState : GState := ⟨[], [], [], [], false⟩

/-- obj[k] = v on an integer-keyed JS object: insert or overwrite the
entry for k, keeping keys in ascending order. -/
def omapInsert (k : ℕ) (v : α) : List (ℕ × α) → List (ℕ × α)
  | [] => [(k, v)]
  | (q, w) :: rest =>
    if k < q then (k, v) :: (q, w) :: rest
    else if k = q then (k, v) :: rest
    else (q, w) :: omapInsert k v rest

/-- delete obj[k]: drop every entry whose key is k. -/
def omapErase (k : ℕ) (l : List (ℕ × α)) : List (ℕ × α) :=
  l.filter (fun p => decide (p.1 ≠ k))

/-- obj[k]: the value stored at key k, if any. -/
def omapLookup (k : ℕ) : List (ℕ × α) → Option α
  | [] => none
  | (q, w) :: rest => if k = q then some w else omapLookup k rest

/-- parseFloat(v.toFixed(4)): round to 4 decimal places; on a tie toFixed
picks the larger candidate, i.e. rounds half toward positive infinity,
which is exactly Mathlib's round. -/
def round4 (v : ℚ) : ℚ := ((round (v * 10000) : ℤ) : ℚ) / 10000

/-- gamepad.buttons.forEach((button, index) => ...): build the padButtons
object, copying {pressed, value, touched} verbatim, indexed from i. -/
def normalizeButtonsFrom : ℕ → List GButton → List (ℕ × GButton)
  | _, [] => []
  | i, b :: rest => (i, ⟨b.pressed, b.value, b.touched⟩) :: normalizeButtonsFrom (i + 1) rest

/-- The padButtons object built from a raw buttons array. -/
def normalizeButtons (bs : List GButton) : List (ℕ × GButton) :=
  normalizeButtonsFrom 0 bs

/-- gamepad.axes.forEach((axisValue, index) => ...): build the padAxes
object from index i on, storing round4 of the value when its magnitude
strictly exceeds the deadzone and exactly 0 otherwise. -/
def normalizeAxesFrom (dz : ℚ) : ℕ → List ℚ → List (ℕ × ℚ)
  | _, [] => []
  | i, v :: rest =>
    (i, if |v| > dz then round4 v else 0) :: normalizeAxesFrom dz (i + 1) rest

/-- The padAxes object built from a raw axes array. -/
def normalizeAxes (dz : ℚ) (axes : List ℚ) : List (ℕ × ℚ) :=
  normalizeAxesFrom dz 0 axes

/-- The body of the poll loop for one non-null slot: if the timestamp is
truthy and differs from the stored one, record it and publish the freshly
normalized button and axis objects for that slot; otherwise do nothing. -/
def processGamepad (dz : ℚ) (gp : Gamepad) (st : GState) : GState :=
  if gp.timestamp ≠ 0 ∧ omapLookup gp.index st.prevTimestamps ≠ some gp.timestamp then
    { st with
      prevTimestamps := omapInsert gp.index gp.timestamp st.prevTimestamps
      buttonStates := omapInsert gp.index (normalizeButtons gp.buttons) st.buttonStates
      axisStates := omapInsert gp.index (normalizeAxes dz gp.axes) st.axisStates }
  else st

/-- checkGamepadInputs: fetch the host list (empty when the capability is
absent), skip null slots, and run the per-device update on each snapshot
in slot order. -/
def checkGamepadInputs (dz : ℚ) (host : Option (List (Option Gamepad))) (st : GState) : GState :=
  (host.getD []).foldl
    (fun s slot =>
      match slot with
      | none => s
      | some gp => processGamepad dz gp s) st

/-- handleGamepadConnected: insert or overwrite the device at its slot,
reset its stored timestamp to the zero sentinel, set the flag true. -/
def handleGamepadConnected (gp : Gamepad) (st : GState) : GState :=
  { st with
    gamepads := omapInsert gp.index gp st.gamepads
    prevTimestamps := omapInsert gp.index 0 st.prevTimestamps
    isGamepadConnected := true }

/-- handleGamepadDisconnected: delete the device entry, its button and
axis entries and its stored timestamp, then recompute the connected flag
by rescanning the host list (false when the capability is absent). -/
def handleGamepadDisconnected (host : Option (List (Option Gamepad))) (gp : Gamepad)
    (st : GState) : GState :=
  { gamepads := omapErase gp.index st.gamepads
    buttonStates := omapErase gp.index st.buttonStates
    axisStates := omapErase gp.index st.axisStates
    prevTimestamps := omapErase gp.index st.prevTimestamps
    isGamepadConnected := (host.getD []).any (fun slot => slot.isSome) }

/-- The mount-time scan: collect the already-present devices, zero their
stored timestamps, and when at least one was found replace the gamepads
object wholesale and set the flag. -/
def initialScan (host : Option (List (Option Gamepad))) (st : GState) : GState :=
  let scanned := (host.getD []).foldl
    (fun (acc : List (ℕ × Gamepad) × List (ℕ × ℚ) × Bool) slot =>
      match slot with
      | none => acc
      | some gp => (omapInsert gp.index gp acc.1, omapInsert gp.index 0 acc.2.1, true))
    ([], st.prevTimestamps, false)
  if scanned.2.2 then
    { st with
      gamepads := scanned.1
      prevTimestamps := scanned.2.1
      isGamepadConnected := true }
  else
    { st with prevTimestamps := scanned.2.1 }

/-- isButtonPressed: true when any device's padButtons object has a
pressed entry at that button index. -/
def isButtonPressed (st : GState) (bi : ℕ) : Bool :=
  st.buttonStates.any (fun p =>
    match omapLookup bi p.2 with
    | some b => b.pressed
    | none => false)

/-- isButtonPressedOnGamepad: the pressed field at that device and button
index, or false when either lookup misses. -/
def isButtonPressedOnGamepad (st : GState) (gi bi : ℕ) : Bool :=
  match omapLookup gi st.buttonStates with
  | some pb =>
    match omapLookup bi pb with
    | some b => b.pressed
    | none => false
  | none => false

/-- The for-in loop of getAxisValue over the axisStates entries in
ascending key order: return the first stored value at the axis index that
is truthy and of magnitude strictly above the deadzone, else 0. -/
def axisScan (dz : ℚ) (ai : ℕ) : List (ℕ × List (ℕ × ℚ)) → ℚ
  | [] => 0
  | p :: rest =>
    match omapLookup ai p.2 with
    | some v => if v ≠ 0 ∧ |v| > dz then v else axisScan dz ai rest
    | none => axisScan dz ai rest

/-- getAxisValue: scan the devices in ascending slot order. -/
def getAxisValue (dz : ℚ) (st : GState) (ai : ℕ) : ℚ :=
  axisScan dz ai st.axisStates

/-- getAxisValueForGamepad: the stored value at that device and axis
index, or 0 when either lookup misses (a stored 0 also yields 0). -/
def getAxisValueForGamepad (st : GState) (gi ai : ℕ) : ℚ :=
  match omapLookup gi st.axisStates with
  | some axes =>
    match omapLookup ai axes with
    | some v => v
    | none => 0
  | none => 0

/-- Modelled from the spec: whether a device's published axis object hits
the query at the given axis index, that is, stores a non-zero value of
magnitude strictly greater than the deadzone. -/
def specAxisHit (dz : ℚ) (ai : ℕ) (p : ℕ × List (ℕ × ℚ)) : Bool :=
  match omapLookup ai p.2 with
  | some w => if w ≠ 0 ∧ |w| > dz then true else false
  | none => false

/-- Modelled from the spec: the slot index and the stored value of the
lowest-indexed device slot that hits the query, if any. -/
def specLowestHit (dz : ℚ) (ai : ℕ) : List (ℕ × List (ℕ × ℚ)) → Option (ℕ × ℚ)
  | [] => none
  | p :: rest =>
    if specAxisHit dz ai p then
      match specLowestHit dz ai rest with
      | some q => if p.1 ≤ q.1 then some (p.1, (omapLookup ai p.2).getD 0) else some q
      | none => some (p.1, (omapLookup ai p.2).getD 0)
    else specLowestHit dz ai rest

/-- A published store with two devices at slots 0 and 1 that both store
the axis value 1/2 at axis index 0. -/
def stTwoHalf : GState :=
  ⟨[], [], [(0, [(0, 1/2)]), (1, [(0, 1/2)])], [], true⟩

/-- A store carrying entries at slots 0 and 2 in every mapping, used to
observe removal and preservation of other slots. -/
def stTwoSlots : GState :=
  ⟨[(0, ⟨0, "d", 5, [], []⟩), (2, ⟨2, "d", 5, [], []⟩)],
   [(0, [(0, ⟨false, 0, none⟩)]), (2, [])],
   [(0, [(0, 1)]), (2, [])],
   [(0, 5), (2, 3)],
   true⟩

/-- A device snapshot at slot 0 whose timestamp 5 is truthy. -/
def wPad : Gamepad := ⟨0, "p", 5, [⟨true, 1, none⟩], [1]⟩

/-- A device snapshot at slot 0 whose timestamp is 0, the falsy value. -/
def gpZero : Gamepad := ⟨0, "z", 0, [⟨true, 1, none⟩], [1]⟩

/-- A second snapshot of slot 0 with the truthy timestamp 7. -/
def wPadNext : Gamepad := ⟨0, "n", 7, [⟨true, 1, none⟩], [1]⟩

/-- The device snapshot producing the raw axis value 0.10004. -/
def pad10004 : Gamepad := ⟨0, "t", 1, [], [10004/100000]⟩

theorem omapLookup_insert_self (k : ℕ) (v : α) (l : List (ℕ × α)) :
    omapLookup k (omapInsert k v l) = some v := by
  induction l with
  | nil => simp [omapInsert, omapLookup]
  | cons p rest ih =>
    obtain ⟨q, w⟩ := p
    by_cases h1 : k < q
    · simp [omapInsert, h1, omapLookup]
    · by_cases h2 : k = q
      · simp [omapInsert, h1, h2, omapLookup]
      · simp [omapInsert, h1, h2, omapLookup, ih]

theorem omapLookup_insert_ne (j k : ℕ) (v : α) (l : List (ℕ × α)) (h : j ≠ k) :
    omapLookup j (omapInsert k v l) = omapLookup j l := by
  induction l with
  | nil => simp [omapInsert, omapLookup, h]
  | cons p rest ih =>
    obtain ⟨q, w⟩ := p
    by_cases h1 : k < q
    · simp [omapInsert, h1, omapLookup, h]
    · by_cases h2 : k = q
      · subst h2
        simp [omapInsert, h1, omapLookup, h]
      · simp [omapInsert, h1, h2, omapLookup, ih]

theorem omapLookup_of_insert_eq (k : ℕ) (v : α) (l : List (ℕ × α))
    (h : omapInsert k v l = l) : omapLookup k l = some v := by
  induction l with
  | nil => simp [omapInsert] at h
  | cons p rest ih =>
    obtain ⟨q, w⟩ := p
    by_cases h1 : k < q
    · exfalso
      simp only [omapInsert, if_pos h1] at h
      have hlen := congrArg List.length h
      simp at hlen
    · by_cases h2 : k = q
      · simp only [omapInsert, if_neg h1, if_pos h2] at h
        simp only [List.cons.injEq, Prod.mk.injEq] at h
        simp [omapLookup, h2, h.1.2]
      · simp only [omapInsert, if_neg h1, if_neg h2] at h
        simp only [List.cons.injEq, true_and] at h
        simp [omapLookup, h2, ih h]

theorem omapLookup_erase_self (k : ℕ) (l : List (ℕ × α)) :
    omapLookup k (omapErase k l) = none := by
  induction l with
  | nil => rfl
  | cons p rest ih =>
    obtain ⟨q, w⟩ := p
    by_cases h : q = k
    · simpa [omapErase, List.filter_cons, h] using ih
    · have h2 : k ≠ q := fun hc => h hc.symm
      simpa [omapErase, List.filter_cons, h, omapLookup, h2] using ih

theorem omapLookup_erase_ne (j k : ℕ) (l : List (ℕ × α)) (h : j ≠ k) :
    omapLookup j (omapErase k l) = omapLookup j l := by
  induction l with
  | nil => rfl
  | cons p rest ih =>
    obtain ⟨q, w⟩ := p
    by_cases h1 : q = k
    · have h2 : j ≠ q := fun hc => h (hc.trans h1)
      simpa [omapErase, List.filter_cons, h1, omapLookup, h2, h] using ih
    · by_cases h3 : j = q
      · simp [omapErase, List.filter_cons, h1, omapLookup, h3]
      · simpa [omapErase, List.filter_cons, h1, omapLookup, h3] using ih

theorem omapErase_of_lookup_none (k : ℕ) (l : List (ℕ × α))
    (h : omapLookup k l = none) : omapErase k l = l := by
  induction l with
  | nil => rfl
  | cons p rest ih =>
    obtain ⟨q, w⟩ := p
    by_cases h2 : k = q
    · simp [omapLookup, h2] at h
    · have h3 : q ≠ k := fun hc => h2 hc.symm
      simp only [omapLookup, if_neg h2] at h
      have hkeep : decide ((q, w).1 ≠ k) = true := by simp [h3]
      simp only [omapErase] at ih ⊢
      rw [List.filter_cons, if_pos hkeep, ih h]

theorem normalizeAxesFrom_lookup (dz : ℚ) (n : ℕ) (axes : List ℚ) (i : ℕ)
    (hi : i < axes.length) :
    omapLookup (n + i) (normalizeAxesFrom dz n axes) =
      some (if |axes[i]| > dz then round4 axes[i] else 0) := by
  induction axes generalizing n i with
  | nil => simp at hi
  | cons v rest ih =>
    cases i with
    | zero => simp [normalizeAxesFrom, omapLookup]
    | succ m =>
      have hne : n + (m + 1) ≠ n := by omega
      have hm : m < rest.length := by simpa using hi
      have harith : n + (m + 1) = (n + 1) + m := by omega
      simp only [normalizeAxesFrom, omapLookup, if_neg hne, List.getElem_cons_succ]
      rw [harith]
      exact ih (n + 1) m hm

theorem normalizeButtonsFrom_lookup (n : ℕ) (bs : List GButton) (j : ℕ)
    (hj : j < bs.length) :
    omapLookup (n + j) (normalizeButtonsFrom n bs) = some bs[j] := by
  induction bs generalizing n j with
  | nil => simp at hj
  | cons b rest ih =>
    cases j with
    | zero => simp [normalizeButtonsFrom, omapLookup]
    | succ m =>
      have hne : n + (m + 1) ≠ n := by omega
      have hm : m < rest.length := by simpa using hj
      have harith : n + (m + 1) = (n + 1) + m := by omega
      simp only [normalizeButtonsFrom, omapLookup, if_neg hne, List.getElem_cons_succ]
      rw [harith]
      exact ih (n + 1) m hm

theorem specLowestHit_key_mem (dz : ℚ) (ai : ℕ) (l : List (ℕ × List (ℕ × ℚ)))
    (q : ℕ × ℚ) (h : specLowestHit dz ai l = some q) : q.1 ∈ l.map Prod.fst := by
  induction l with
  | nil => simp [specLowestHit] at h
  | cons p rest ih =>
    by_cases hhit : specAxisHit dz ai p = true
    · rw [specLowestHit, if_pos hhit] at h
      cases hr : specLowestHit dz ai rest with
      | none =>
        rw [hr] at h
        simp only [Option.some.injEq] at h
        simp [← h]
      | some q2 =>
        rw [hr] at h
        have h2 : (if p.1 ≤ q2.1 then some (p.1, (omapLookup ai p.2).getD 0)
            else some q2) = some q := h
        by_cases hle : p.1 ≤ q2.1
        · rw [if_pos hle] at h2
          simp only [Option.some.injEq] at h2
          simp [← h2]
        · rw [if_neg hle] at h2
          simp only [Option.some.injEq] at h2
          subst h2
          simp [ih hr]
    · rw [specLowestHit, if_neg hhit] at h
      simp [ih h]

theorem axisScan_eq_lowest (dz : ℚ) (ai : ℕ) (l : List (ℕ × List (ℕ × ℚ)))
    (hsort : l.Pairwise (fun p q => p.1 < q.1)) :
    axisScan dz ai l = ((specLowestHit dz ai l).map Prod.snd).getD 0 := by
  induction l with
  | nil => simp [axisScan, specLowestHit]
  | cons p rest ih =>
    have hhd : ∀ q ∈ rest, p.1 < q.1 := (List.pairwise_cons.mp hsort).1
    have hrest := (List.pairwise_cons.mp hsort).2
    by_cases hhit : specAxisHit dz ai p = true
    · cases hlk : omapLookup ai p.2 with
      | none => simp [specAxisHit, hlk] at hhit
      | some w =>
        have hcond : w ≠ 0 ∧ |w| > dz := by
          by_contra hc
          simp [specAxisHit, hlk, hc] at hhit
        rw [axisScan, hlk]
        show (if w ≠ 0 ∧ |w| > dz then w else axisScan dz ai rest) = _
        rw [if_pos hcond]
        rw [specLowestHit, if_pos hhit]
        cases hr : specLowestHit dz ai rest with
        | none => simp [hlk]
        | some q2 =>
          have hmem := specLowestHit_key_mem dz ai rest q2 hr
          have hlt : p.1 < q2.1 := by
            obtain ⟨x, hx, hxeq⟩ := List.mem_map.mp hmem
            exact hxeq ▸ hhd x hx
          show w = (Option.map Prod.snd
            (if p.1 ≤ q2.1 then some (p.1, (omapLookup ai p.2).getD 0) else some q2)).getD 0
          rw [if_pos (le_of_lt hlt)]
          simp [hlk]
    · rw [specLowestHit, if_neg hhit]
      cases hlk : omapLookup ai p.2 with
      | none =>
        rw [axisScan, hlk]
        exact ih hrest
      | some w =>
        have hcond : ¬(w ≠ 0 ∧ |w| > dz) := by
          intro hc
          simp [specAxisHit, hlk, hc] at hhit
        rw [axisScan, hlk]
        show (if w ≠ 0 ∧ |w| > dz then w else axisScan dz ai rest) = _
        rw [if_neg hcond]
        exact ih hrest

theorem axisScan_eq_zero (dz : ℚ) (ai : ℕ) (l : List (ℕ × List (ℕ × ℚ)))
    (h : ∀ p ∈ l, omapLookup ai p.2 = none) : axisScan dz ai l = 0 := by
  induction l with
  | nil => rfl
  | cons p rest ih =>
    rw [axisScan, h p (List.mem_cons_self p rest)]
    exact ih fun q hq => h q (List.mem_cons_of_mem p hq)

/-- C1: for every axis value in a polled device's raw axis list, at every
positional index of every list, and every deadzone d in [0,1], the
normalized stored value at that axis index is exactly 0 when the
magnitude of the value is at most d (including the boundary value = d)
and is the value rounded to 4 decimal places when the magnitude strictly
exceeds d, while buttons are copied verbatim with no deadzone applied. -/
theorem normalizer_deadzone_spec (dz : ℚ) (h0 : 0 ≤ dz) (h1 : dz ≤ 1)
    (axes : List ℚ) (btns : List GButton) (i j : ℕ)
    (hi : i < axes.length) (hj : j < btns.length) :
    omapLookup i (normalizeAxes dz axes) =
      some (if |axes[i]| ≤ dz then 0 else round4 axes[i]) ∧
    omapLookup j (normalizeButtons btns) = some btns[j] := by
  refine ⟨?_, ?_⟩
  · have h := normalizeAxesFrom_lookup dz 0 axes i hi
    rw [Nat.zero_add] at h
    rw [normalizeAxes, h]
    by_cases hc : |axes[i]| ≤ dz
    · rw [if_neg (not_lt.mpr hc), if_pos hc]
    · rw [if_pos (not_le.mp hc), if_neg hc]
  · have h := normalizeButtonsFrom_lookup 0 btns j hj
    rw [Nat.zero_add] at h
    rw [normalizeButtons, h]

/-- Witness for C1 at deadzone 1/10: a list holding only the boundary
value 1/10 stores exactly 0, a list holding only the passing value
0.23456 stores 0.2346, and a one-button list is copied verbatim. -/
theorem normalizer_deadzone_spec_witness :
    omapLookup 0 (normalizeAxes (1/10) [1/10]) = some 0 ∧
    omapLookup 0 (normalizeAxes (1/10) [23456/100000]) = some (2346/10000) ∧
    omapLookup 0 (normalizeButtons [⟨true, 1, some false⟩]) =
      some ⟨true, 1, some false⟩ := by
  have hA := normalizer_deadzone_spec (1/10) (by norm_num) (by norm_num)
    [1/10] [⟨true, 1, some false⟩] 0 0 (by norm_num) (by norm_num)
  have hB := normalizer_deadzone_spec (1/10) (by norm_num) (by norm_num)
    [23456/100000] [⟨true, 1, some false⟩] 0 0 (by norm_num) (by norm_num)
  refine ⟨?_, ?_, hA.2⟩
  · rw [hA.1]
    norm_num [abs_of_nonneg]
  · rw [hB.1]
    norm_num [abs_of_nonneg, round4, round_eq]

/-- C2: on a published axis-state store whose slots appear in ascending
index order, getAxisValue returns exactly the stored value of the
lowest-indexed slot holding a non-zero value of magnitude strictly above
the deadzone at that axis index, and 0 when no slot does. -/
theorem getAxisValue_first_match (dz : ℚ) (ai : ℕ) (st : GState)
    (hsort : st.axisStates.Pairwise (fun p q => p.1 < q.1)) :
    getAxisValue dz st ai = ((specLowestHit dz ai st.axisStates).map Prod.snd).getD 0 :=
  axisScan_eq_lowest dz ai st.axisStates hsort

/-- Witness for C2: two devices at slots 0 and 1 both storing 1/2 for
axis 0 under deadzone 1/10 make getAxisValue return slot 0's value 1/2. -/
theorem getAxisValue_first_match_witness :
    getAxisValue (1/10) stTwoHalf 0 = 1/2 := by
  have h := getAxisValue_first_match (1/10) 0 stTwoHalf (by decide)
  rw [h]
  norm_num [stTwoHalf, specLowestHit, specAxisHit, omapLookup, abs_of_nonneg]

/-- C3: the per-slot poll step is a no-op exactly when the device's
timestamp is falsy or equal to the stored one, and running it twice in a
row leaves the whole store, in particular the published ButtonState and
AxisState objects, unchanged; the same holds for a full poll tick over a
one-slot host list. -/
theorem processGamepad_unchanged_noop (dz : ℚ) (gp : Gamepad) (st : GState) :
    (processGamepad dz gp st = st ↔
      ¬(gp.timestamp ≠ 0 ∧ omapLookup gp.index st.prevTimestamps ≠ some gp.timestamp)) ∧
    processGamepad dz gp (processGamepad dz gp st) = processGamepad dz gp st ∧
    checkGamepadInputs dz (some [some gp]) (checkGamepadInputs dz (some [some gp]) st) =
      checkGamepadInputs dz (some [some gp]) st := by
  have hnoop : ∀ s : GState,
      ¬(gp.timestamp ≠ 0 ∧ omapLookup gp.index s.prevTimestamps ≠ some gp.timestamp) →
      processGamepad dz gp s = s := by
    intro s h
    simp only [processGamepad, if_neg h]
  have hidem : processGamepad dz gp (processGamepad dz gp st) = processGamepad dz gp st := by
    by_cases hch : gp.timestamp ≠ 0 ∧ omapLookup gp.index st.prevTimestamps ≠ some gp.timestamp
    · apply hnoop
      intro hcontra
      apply hcontra.2
      simp only [processGamepad, if_pos hch]
      exact omapLookup_insert_self _ _ _
    · rw [hnoop st hch]
      exact hnoop st hch
  refine ⟨⟨?_, hnoop st⟩, hidem, ?_⟩
  · intro heq hch
    have h2 := congrArg GState.prevTimestamps heq
    simp only [processGamepad, if_pos hch] at h2
    exact hch.2 (omapLookup_of_insert_eq _ _ _ h2)
  · simpa [checkGamepadInputs] using hidem

/-- C4: the detach handler removes the device entry, its ButtonState
entry, its AxisState entry and its stored timestamp together, leaves
every other slot's entries in all four mappings unchanged, and is a no-op
on those mappings when the slot has no stored entries. -/
theorem disconnect_removes_all (host : Option (List (Option Gamepad))) (gp : Gamepad)
    (st stN : GState) (k : ℕ) (hk : k ≠ gp.index)
    (hg : omapLookup gp.index stN.gamepads = none)
    (hb : omapLookup gp.index stN.buttonStates = none)
    (ha : omapLookup gp.index stN.axisStates = none)
    (ht : omapLookup gp.index stN.prevTimestamps = none) :
    omapLookup gp.index (handleGamepadDisconnected host gp st).gamepads = none ∧
    omapLookup gp.index (handleGamepadDisconnected host gp st).buttonStates = none ∧
    omapLookup gp.index (handleGamepadDisconnected host gp st).axisStates = none ∧
    omapLookup gp.index (handleGamepadDisconnected host gp st).prevTimestamps = none ∧
    omapLookup k (handleGamepadDisconnected host gp st).gamepads = omapLookup k st.gamepads ∧
    omapLookup k (handleGamepadDisconnected host gp st).buttonStates =
      omapLookup k st.buttonStates ∧
    omapLookup k (handleGamepadDisconnected host gp st).axisStates =
      omapLookup k st.axisStates ∧
    omapLookup k (handleGamepadDisconnected host gp st).prevTimestamps =
      omapLookup k st.prevTimestamps ∧
    (handleGamepadDisconnected host gp stN).gamepads = stN.gamepads ∧
    (handleGamepadDisconnected host gp stN).buttonStates = stN.buttonStates ∧
    (handleGamepadDisconnected host gp stN).axisStates = stN.axisStates ∧
    (handleGamepadDisconnected host gp stN).prevTimestamps = stN.prevTimestamps :=
  ⟨omapLookup_erase_self _ _, omapLookup_erase_self _ _, omapLookup_erase_self _ _,
    omapLookup_erase_self _ _, omapLookup_erase_ne _ _ _ hk, omapLookup_erase_ne _ _ _ hk,
    omapLookup_erase_ne _ _ _ hk, omapLookup_erase_ne _ _ _ hk,
    omapErase_of_lookup_none _ _ hg, omapErase_of_lookup_none _ _ hb,
    omapErase_of_lookup_none _ _ ha, omapErase_of_lookup_none _ _ ht⟩

/-- Witness for C4: detaching slot 0 from a store with slots 0 and 2, and
detaching slot 0 from the empty store. -/
theorem disconnect_removes_all_witness :
    omapLookup wPad.index (handleGamepadDisconnected (some []) wPad stTwoSlots).gamepads =
      none ∧
    omapLookup wPad.index (handleGamepadDisconnected (some []) wPad stTwoSlots).buttonStates =
      none ∧
    omapLookup wPad.index (handleGamepadDisconnected (some []) wPad stTwoSlots).axisStates =
      none ∧
    omapLookup wPad.index
      (handleGamepadDisconnected (some []) wPad stTwoSlots).prevTimestamps = none ∧
    omapLookup 2 (handleGamepadDisconnected (some []) wPad stTwoSlots).gamepads =
      omapLookup 2 stTwoSlots.gamepads ∧
    omapLookup 2 (handleGamepadDisconnected (some []) wPad stTwoSlots).buttonStates =
      omapLookup 2 stTwoSlots.buttonStates ∧
    omapLookup 2 (handleGamepadDisconnected (some []) wPad stTwoSlots).axisStates =
      omapLookup 2 stTwoSlots.axisStates ∧
    omapLookup 2 (handleGamepadDisconnected (some []) wPad stTwoSlots).prevTimestamps =
      omapLookup 2 stTwoSlots.prevTimestamps ∧
    (handleGamepadDisconnected (some []) wPad initState).gamepads = initState.gamepads ∧
    (handleGamepadDisconnected (some []) wPad initState).buttonStates =
      initState.buttonStates ∧
    (handleGamepadDisconnected (some []) wPad initState).axisStates = initState.axisStates ∧
    (handleGamepadDisconnected (some []) wPad initState).prevTimestamps =
      initState.prevTimestamps :=
  disconnect_removes_all (some []) wPad stTwoSlots initState 2 (by decide)
    (by decide) (by decide) (by decide) (by decide)

/-- C5: each query on a non-existent device slot, button index or axis
index returns false or 0 rather than failing, and on the empty store
isButtonPressed returns false and getAxisValue returns 0. -/
theorem queries_miss_default (dz : ℚ) (st stg sta : GState) (gi bi ai : ℕ)
    (hbg : Option.bind (omapLookup gi stg.buttonStates) (omapLookup bi) = none)
    (hag : Option.bind (omapLookup gi sta.axisStates) (omapLookup ai) = none)
    (hb : ∀ p ∈ st.buttonStates, omapLookup bi p.2 = none)
    (ha : ∀ p ∈ st.axisStates, omapLookup ai p.2 = none) :
    isButtonPressedOnGamepad stg gi bi = false ∧
    getAxisValueForGamepad sta gi ai = 0 ∧
    isButtonPressed st bi = false ∧
    getAxisValue dz st ai = 0 ∧
    isButtonPressed initState bi = false ∧
    getAxisValue dz initState ai = 0 := by
  refine ⟨?_, ?_, ?_, ?_, rfl, rfl⟩
  · cases h1 : omapLookup gi stg.buttonStates with
    | none => simp [isButtonPressedOnGamepad, h1]
    | some pb =>
      rw [h1] at hbg
      simp only [Option.bind] at hbg
      simp [isButtonPressedOnGamepad, h1, hbg]
  · cases h1 : omapLookup gi sta.axisStates with
    | none => simp [getAxisValueForGamepad, h1]
    | some axes =>
      rw [h1] at hag
      simp only [Option.bind] at hag
      simp [getAxisValueForGamepad, h1, hag]
  · rw [isButtonPressed, List.any_eq_false]
    intro p hp
    simp [hb p hp]
  · rw [getAxisValue]
    exact axisScan_eq_zero dz ai st.axisStates ha

/-- Witness for C5: queries at absent slot 7, absent button index 5 and
absent axis index 5 on a populated store and on the empty store. -/
theorem queries_miss_default_witness :
    isButtonPressedOnGamepad stTwoSlots 7 5 = false ∧
    getAxisValueForGamepad stTwoSlots 7 5 = 0 ∧
    isButtonPressed stTwoSlots 5 = false ∧
    getAxisValue (1/10) stTwoSlots 5 = 0 ∧
    isButtonPressed initState 5 = false ∧
    getAxisValue (1/10) initState 5 = 0 :=
  queries_miss_default (1/10) stTwoSlots stTwoSlots stTwoSlots 7 5 5
    (by decide) (by decide) (by decide) (by decide)

/-- C6: with the host device-query capability absent, the poll tick and
the initial scan leave the store exactly unchanged, and they coincide
with their behavior on an empty device list. -/
theorem absent_capability_empty (dz : ℚ) (st : GState) :
    checkGamepadInputs dz none st = st ∧
    checkGamepadInputs dz none st = checkGamepadInputs dz (some []) st ∧
    initialScan none st = st ∧
    initialScan none st = initialScan (some []) st :=
  ⟨rfl, rfl, rfl, rfl⟩

/-- C7: when a poll tick finds a device changed, it records the new
timestamp and publishes the freshly normalized ButtonState and AxisState
for that slot as a full replacement of the previous entries, leaving the
entries of every other slot unchanged. -/
theorem processGamepad_publishes (dz : ℚ) (gp : Gamepad) (st : GState) (k : ℕ)
    (hch : gp.timestamp ≠ 0 ∧ omapLookup gp.index st.prevTimestamps ≠ some gp.timestamp)
    (hk : k ≠ gp.index) :
    omapLookup gp.index (processGamepad dz gp st).prevTimestamps = some gp.timestamp ∧
    omapLookup gp.index (processGamepad dz gp st).buttonStates =
      some (normalizeButtons gp.buttons) ∧
    omapLookup gp.index (processGamepad dz gp st).axisStates =
      some (normalizeAxes dz gp.axes) ∧
    omapLookup k (processGamepad dz gp st).buttonStates = omapLookup k st.buttonStates ∧
    omapLookup k (processGamepad dz gp st).axisStates = omapLookup k st.axisStates ∧
    omapLookup k (processGamepad dz gp st).prevTimestamps = omapLookup k st.prevTimestamps := by
  simp only [processGamepad, if_pos hch]
  exact ⟨omapLookup_insert_self _ _ _, omapLookup_insert_self _ _ _,
    omapLookup_insert_self _ _ _, omapLookup_insert_ne _ _ _ _ hk,
    omapLookup_insert_ne _ _ _ _ hk, omapLookup_insert_ne _ _ _ _ hk⟩

/-- Witness for C7: the changed device at slot 0, whose slot previously
held other published entries, is fully replaced while slot 2 is kept. -/
theorem processGamepad_publishes_witness :
    omapLookup wPadNext.index (processGamepad (1/10) wPadNext stTwoSlots).prevTimestamps =
      some wPadNext.timestamp ∧
    omapLookup wPadNext.index (processGamepad (1/10) wPadNext stTwoSlots).buttonStates =
      some (normalizeButtons wPadNext.buttons) ∧
    omapLookup wPadNext.index (processGamepad (1/10) wPadNext stTwoSlots).axisStates =
      some (normalizeAxes (1/10) wPadNext.axes) ∧
    omapLookup 2 (processGamepad (1/10) wPadNext stTwoSlots).buttonStates =
      omapLookup 2 stTwoSlots.buttonStates ∧
    omapLookup 2 (processGamepad (1/10) wPadNext stTwoSlots).axisStates =
      omapLookup 2 stTwoSlots.axisStates ∧
    omapLookup 2 (processGamepad (1/10) wPadNext stTwoSlots).prevTimestamps =
      omapLookup 2 stTwoSlots.prevTimestamps :=
  processGamepad_publishes (1/10) wPadNext stTwoSlots 2 (by decide) (by decide)

/-- C8 counterexample: a device whose snapshot reports the falsy
timestamp 0 is not treated as changed by the poll right after its attach,
so nothing is republished for it, refuting the unconditional claim. -/
theorem connect_then_zero_timestamp_poll_noop :
    processGamepad (1/10) gpZero (handleGamepadConnected gpZero initState) =
      handleGamepadConnected gpZero initState ∧
    (handleGamepadConnected gpZero initState).buttonStates = [] ∧
    (handleGamepadConnected gpZero initState).axisStates = [] := by
  refine ⟨?_, rfl, rfl⟩
  simp [processGamepad, gpZero]

/-- C8 (amended): the attach handler inserts or overwrites the device
entry at its slot, zeroes the stored timestamp and sets the connected
flag true, and the next poll tick treats the device as changed and
republishes its state whenever its reported timestamp is truthy
(nonzero), since the zero sentinel can never equal a truthy timestamp. -/
theorem connect_resets_timestamp (gp gpN : Gamepad) (st : GState) (dz : ℚ)
    (hidx : gpN.index = gp.index) (hts : gpN.timestamp ≠ 0) :
    omapLookup gp.index (handleGamepadConnected gp st).gamepads = some gp ∧
    omapLookup gp.index (handleGamepadConnected gp st).prevTimestamps = some 0 ∧
    (handleGamepadConnected gp st).isGamepadConnected = true ∧
    omapLookup gpN.index
      (processGamepad dz gpN (handleGamepadConnected gp st)).prevTimestamps =
      some gpN.timestamp ∧
    omapLookup gpN.index
      (processGamepad dz gpN (handleGamepadConnected gp st)).buttonStates =
      some (normalizeButtons gpN.buttons) ∧
    omapLookup gpN.index
      (processGamepad dz gpN (handleGamepadConnected gp st)).axisStates =
      some (normalizeAxes dz gpN.axes) := by
  have hprev : omapLookup gpN.index (handleGamepadConnected gp st).prevTimestamps = some 0 := by
    rw [hidx]
    exact omapLookup_insert_self _ _ _
  have hch : gpN.timestamp ≠ 0 ∧
      omapLookup gpN.index (handleGamepadConnected gp st).prevTimestamps ≠
        some gpN.timestamp := by
    refine ⟨hts, ?_⟩
    rw [hprev]
    exact fun hc => hts (Option.some_injective _ hc).symm
  refine ⟨omapLookup_insert_self _ _ _, omapLookup_insert_self _ _ _, rfl, ?_, ?_, ?_⟩
  · simp only [processGamepad, if_pos hch]
    exact omapLookup_insert_self _ _ _
  · simp only [processGamepad, if_pos hch]
    exact omapLookup_insert_self _ _ _
  · simp only [processGamepad, if_pos hch]
    exact omapLookup_insert_self _ _ _

/-- Witness for C8 (amended): attach at slot 0, then a poll snapshot of
slot 0 with the truthy timestamp 7. -/
theorem connect_resets_timestamp_witness :
    omapLookup wPad.index (handleGamepadConnected wPad initState).gamepads = some wPad ∧
    omapLookup wPad.index (handleGamepadConnected wPad initState).prevTimestamps = some 0 ∧
    (handleGamepadConnected wPad initState).isGamepadConnected = true ∧
    omapLookup wPadNext.index
      (processGamepad (1/10) wPadNext (handleGamepadConnected wPad initState)).prevTimestamps =
      some wPadNext.timestamp ∧
    omapLookup wPadNext.index
      (processGamepad (1/10) wPadNext (handleGamepadConnected wPad initState)).buttonStates =
      some (normalizeButtons wPadNext.buttons) ∧
    omapLookup wPadNext.index
      (processGamepad (1/10) wPadNext (handleGamepadConnected wPad initState)).axisStates =
      some (normalizeAxes (1/10) wPadNext.axes) :=
  connect_resets_timestamp wPad wPadNext initState (1/10) (by decide) (by decide)

/-- C9: after a detach the connected flag equals whether the host's
current device list contains at least one non-null slot, independent of
the local store's contents, and it is false when the host query
capability is absent. -/
theorem disconnect_flag_rescans_host (host : Option (List (Option Gamepad)))
    (gp : Gamepad) (st st2 : GState) :
    (handleGamepadDisconnected host gp st).isGamepadConnected =
      (host.getD []).any (fun slot => slot.isSome) ∧
    (handleGamepadDisconnected none gp st).isGamepadConnected = false ∧
    (handleGamepadDisconnected host gp st).isGamepadConnected =
      (handleGamepadDisconnected host gp st2).isGamepadConnected :=
  ⟨rfl, rfl, rfl⟩

/-- C10: with deadzone 1/10 the raw axis value 0.10004 passes the
deadzone test and is stored as the rounded value 1/10, which
getAxisValueForGamepad returns, but getAxisValue re-applies the strict
test to the stored 1/10 and returns 0 for the same axis. -/
theorem rounded_value_query_disagreement :
    |(10004 : ℚ)/100000| > 1/10 ∧
    round4 (10004/100000) = 1/10 ∧
    (processGamepad (1/10) pad10004 initState).axisStates = [(0, [(0, 1/10)])] ∧
    getAxisValueForGamepad (processGamepad (1/10) pad10004 initState) 0 0 = 1/10 ∧
    getAxisValue (1/10) (processGamepad (1/10) pad10004 initState) 0 = 0 := by
  have hab : |(10004 : ℚ)/100000| > 1/10 := by norm_num [abs_of_nonneg]
  have hr : round4 (10004/100000) = 1/10 := by norm_num [round4, round_eq]
  have hch : pad10004.timestamp ≠ 0 ∧
      omapLookup pad10004.index initState.prevTimestamps ≠ some pad10004.timestamp := by
    constructor
    · norm_num [pad10004]
    · simp [initState, omapLookup]
  have hax : (processGamepad (1/10) pad10004 initState).axisStates = [(0, [(0, 1/10)])] := by
    simp only [processGamepad, if_pos hch]
    simp only [pad10004, initState, normalizeAxes, normalizeAxesFrom, omapInsert]
    rw [if_pos hab, hr]
  refine ⟨hab, hr, hax, ?_, ?_⟩
  · norm_num [getAxisValueForGamepad, omapLookup, pad10004, normalizeAxes,
      normalizeAxesFrom, round4, round_eq, abs_of_nonneg]
  · rw [getAxisValue, hax]
    norm_num [axisScan, omapLookup, abs_of_nonneg]

